import Mathlib

/-!
# netconf_ssh.c : a fixed libssh call sequence

Shallow embedding of `src/netconf_ssh.c`.  The program talks to libssh and to
stdio only, so a run is determined by what the library answers.  `Env` holds
one answer per call site (`main` has no loop, so each call site is reached at
most once per run), `World` accumulates what the program does (the libssh
calls in order, the bytes sent to standard output and standard error), and
`main` is the C `main` written with explicit state passing.

Bytes are natural numbers, C strings are byte lists read up to the first NUL,
pointers are natural numbers with `NULL = 0`.
-/

namespace NetconfSsh

/-! ## C strings and memory regions -/

/-- Bytes of an ASCII string literal, without a terminator. -/
def bytes (s : String) : List Nat := s.toList.map Char.toNat

/-- The memory occupied by a C string literal: its bytes and the terminating NUL. -/
def literal (s : String) : List Nat := bytes s ++ [0]

/-- What `%s` prints for a pointer to the region `mem`: the bytes before the first NUL. -/
def cstr (mem : List Nat) : List Nat := mem.takeWhile (fun b => b != 0)

/-- C `strlen` on the region `mem`. -/
def strlen (mem : List Nat) : Nat := (cstr mem).length

/-- C `memset(buf, c, n)` on a region: the first `n` bytes become `c`. -/
def memset (buf : List Nat) (c n : Nat) : List Nat := List.replicate n c ++ buf.drop n

/-- A library store of `data` at the start of the region `buf`.  When `data` is
longer than `buf` the result is longer than `buf`: the extra bytes stand for the
out-of-bounds store. -/
def store (buf data : List Nat) : List Nat := data ++ buf.drop data.length

/-! ## Constants -/

/-- The macro `NETCONF_HELLO` (lines 6-12). -/
def NETCONF_HELLO : String :=
  "<?xml version=\"1.0\" encoding=\"UTF-8\"?>\n" ++
  "<hello xmlns=\"urn:ietf:params:xml:ns:netconf:base:1.0\">\n" ++
  "  <capabilities>\n" ++
  "    <capability>urn:ietf:params:netconf:base:1.0</capability>\n" ++
  "  </capabilities>\n" ++
  "</hello>\n"

/-- The null pointer. -/
def NULL : Nat := 0

/-- Value of `SSH_OK` in `libssh/libssh.h`. -/
def SSH_OK : Int := 0

/-- Value of `SSH_AUTH_SUCCESS` in `libssh/libssh.h` (first member of `enum ssh_auth_e`). -/
def SSH_AUTH_SUCCESS : Int := 0

/-- Value of `EXIT_FAILURE` in `stdlib.h`; the spec words the failing exit as `exit(1)`. -/
def EXIT_FAILURE : Int := 1

/-- Size of `char buffer[4096]` (line 73). -/
def BUFFER_SIZE : Nat := 4096

/-! ## Library calls -/

/-- The three option keys that `main` sets. -/
inductive SshOption where
  | SSH_OPTIONS_HOST
  | SSH_OPTIONS_PORT_STR
  | SSH_OPTIONS_USER
  deriving DecidableEq, Repr

/-- A libssh call with its arguments.  Sessions and channels are pointers;
`ssh_channel_write` records the region its data pointer addresses and the
requested length; `ssh_channel_read` records the requested count and the
`is_stderr` flag. -/
inductive Call where
  | ssh_new
  | ssh_options_set (session : Nat) (option : SshOption) (value : String)
  | ssh_connect (session : Nat)
  | ssh_userauth_password (session : Nat) (username : Option String) (password : String)
  | ssh_channel_new (session : Nat)
  | ssh_channel_open_session (channel : Nat)
  | ssh_channel_request_subsystem (channel : Nat) (subsystem : String)
  | ssh_channel_write (channel : Nat) (data : List Nat) (len : Nat)
  | ssh_channel_read (channel : Nat) (count : Nat) (is_stderr : Int)
  | ssh_channel_close (channel : Nat)
  | ssh_channel_free (channel : Nat)
  | ssh_disconnect (session : Nat)
  | ssh_free (session : Nat)
  | ssh_get_error (session : Nat)
  deriving DecidableEq, Repr

/-- What the library and the machine answer in one run. -/
structure Env where
  /-- pointer returned by `ssh_new` -/
  ssh_new : Nat
  /-- return value of `ssh_options_set(session, SSH_OPTIONS_HOST, ...)` -/
  ssh_options_set_host : Int
  /-- return value of `ssh_options_set(session, SSH_OPTIONS_PORT_STR, ...)` -/
  ssh_options_set_port : Int
  /-- return value of `ssh_options_set(session, SSH_OPTIONS_USER, ...)` -/
  ssh_options_set_user : Int
  /-- return value of `ssh_connect` -/
  ssh_connect : Int
  /-- return value of `ssh_userauth_password` -/
  ssh_userauth_password : Int
  /-- pointer returned by `ssh_channel_new` -/
  ssh_channel_new : Nat
  /-- return value of `ssh_channel_open_session` -/
  ssh_channel_open_session : Int
  /-- return value of `ssh_channel_request_subsystem` -/
  ssh_channel_request_subsystem : Int
  /-- return value of `ssh_channel_write` -/
  ssh_channel_write : Int
  /-- return value of `ssh_channel_read` -/
  ssh_channel_read : Int
  /-- the bytes `ssh_channel_read` stores at the start of its destination -/
  read_data : List Nat
  /-- return value of `ssh_channel_close` -/
  ssh_channel_close : Int
  /-- the characters of the string `ssh_get_error` returns for a session pointer, without
  the terminating NUL -/
  ssh_get_error : Nat → List Nat
  /-- contents of the uninitialised stack slot of `buffer`, by index -/
  stack : Nat → Nat

/-- How the process ends. -/
inductive Termination where
  | returned (value : Int)
  | exited (status : Int)
  deriving DecidableEq, Repr

/-- The exit status of the process. -/
def Termination.status : Termination → Int
  | Termination.returned v => v
  | Termination.exited s => s

/-- The observable effects of a run so far. -/
structure World where
  /-- libssh calls, oldest first -/
  calls : List Call
  /-- bytes written to standard output -/
  stdout : List Nat
  /-- bytes written to standard error -/
  stderr : List Nat
  deriving DecidableEq

/-- The state before `main` starts. -/
def World.init : World := ⟨[], [], []⟩

/-- Record a libssh call. -/
def World.call (w : World) (c : Call) : World := ⟨w.calls ++ [c], w.stdout, w.stderr⟩

/-- Append bytes to standard output. -/
def World.put_stdout (w : World) (bs : List Nat) : World := ⟨w.calls, w.stdout ++ bs, w.stderr⟩

/-- Append bytes to standard error. -/
def World.put_stderr (w : World) (bs : List Nat) : World := ⟨w.calls, w.stdout, w.stderr ++ bs⟩

/-- A finished run. -/
structure Outcome where
  /-- everything the run did -/
  world : World
  /-- how it ended -/
  term : Termination
  deriving DecidableEq

/-! ## The program -/

/-- `error_exit` (lines 14-18): the argument `ssh_get_error(session)` is evaluated,
`fprintf` writes `"%s: %s\n"`, the session is freed when non-null, and the process exits. -/
def error_exit (env : Env) (message : String) (session : Nat) (w : World) : Outcome :=
  let w1 := w.call (Call.ssh_get_error session)
  let w2 := w1.put_stderr (cstr (literal message) ++ bytes ": " ++ env.ssh_get_error session ++ bytes "\n")
  let w3 := if session ≠ NULL then w2.call (Call.ssh_free session) else w2
  ⟨w3, Termination.exited EXIT_FAILURE⟩

/-- The contents of `buffer` when it is declared (line 73). -/
def buffer_uninit (env : Env) : List Nat := (List.range BUFFER_SIZE).map env.stack

/-- The contents of `buffer` after `memset` (line 74) and `ssh_channel_read` (line 75). -/
def buffer_after_read (env : Env) : List Nat :=
  store (memset (buffer_uninit env) 0 BUFFER_SIZE) env.read_data

/-- `main` (lines 20-90). -/
def main (env : Env) : Outcome :=
  let w := World.init
  -- Initialize SSH session
  let session := env.ssh_new
  let w := w.call Call.ssh_new
  if session = NULL then
    ⟨w.put_stderr (bytes "Failed to initialize SSH session.\n"), Termination.exited EXIT_FAILURE⟩
  else
  -- Set connection parameters
  let w := w.call (Call.ssh_options_set session SshOption.SSH_OPTIONS_HOST "10.147.40.55")
  let w := w.call (Call.ssh_options_set session SshOption.SSH_OPTIONS_PORT_STR "2022")
  let w := w.call (Call.ssh_options_set session SshOption.SSH_OPTIONS_USER "admin")
  -- Connect to the server
  let w := w.call (Call.ssh_connect session)
  let rc := env.ssh_connect
  if rc ≠ SSH_OK then error_exit env "Error connecting to server" session w else
  -- Authenticate
  let w := w.call (Call.ssh_userauth_password session none "admin")
  let rc := env.ssh_userauth_password
  if rc ≠ SSH_AUTH_SUCCESS then error_exit env "Authentication failed" session w else
  -- Open a new channel
  let channel := env.ssh_channel_new
  let w := w.call (Call.ssh_channel_new session)
  if channel = NULL then error_exit env "Failed to open channel" session w else
  let w := w.call (Call.ssh_channel_open_session channel)
  let rc := env.ssh_channel_open_session
  if rc ≠ SSH_OK then error_exit env "Failed to open channel session" session w else
  -- Start a NETCONF subsystem
  let w := w.call (Call.ssh_channel_request_subsystem channel "netconf")
  let rc := env.ssh_channel_request_subsystem
  if rc ≠ SSH_OK then error_exit env "Failed to start NETCONF subsystem" session w else
  -- Send the NETCONF HELLO message
  let w := w.call (Call.ssh_channel_write channel (literal NETCONF_HELLO) (strlen (literal NETCONF_HELLO)))
  let rc := env.ssh_channel_write
  if rc < 0 then error_exit env "Failed to send NETCONF HELLO message" session w else
  -- Read the response from the server
  let w := w.call (Call.ssh_channel_read channel (BUFFER_SIZE - 1) 0)
  let buffer := buffer_after_read env
  let rc := env.ssh_channel_read
  if rc < 0 then error_exit env "Failed to read response from server" session w else
  -- Print the server response
  let w := w.put_stdout (bytes "NETCONF Server Response:\n" ++ cstr buffer ++ bytes "\n")
  -- Clean up and close
  let w := w.call (Call.ssh_channel_close channel)
  let w := w.call (Call.ssh_channel_free channel)
  let w := w.call (Call.ssh_disconnect session)
  let w := w.call (Call.ssh_free session)
  ⟨w, Termination.returned 0⟩

/-- An environment in which every step succeeds and the server answers `ok`. -/
def envOk : Env :=
  ⟨1, 0, 0, 0, 0, 0, 2, 0, 0, 201, 2, [111, 107], 0, fun _ => [], fun _ => 170⟩


/-! ## Explicit traces of the nine paths through `main` -/

/-- Calls made up to and including `ssh_connect`. -/
def callsToConnect (s : Nat) : List Call :=
  [Call.ssh_new,
   Call.ssh_options_set s SshOption.SSH_OPTIONS_HOST "10.147.40.55",
   Call.ssh_options_set s SshOption.SSH_OPTIONS_PORT_STR "2022",
   Call.ssh_options_set s SshOption.SSH_OPTIONS_USER "admin",
   Call.ssh_connect s]

/-- The calls of the main line, in program order, up to and including the `n`-th
checked step after `ssh_new` (`1` = connect, ..., `7` = read). -/
def mainLine (s c : Nat) : List Call :=
  callsToConnect s ++
  [Call.ssh_userauth_password s none "admin",
   Call.ssh_channel_new s,
   Call.ssh_channel_open_session c,
   Call.ssh_channel_request_subsystem c "netconf",
   Call.ssh_channel_write c (literal NETCONF_HELLO) (strlen (literal NETCONF_HELLO)),
   Call.ssh_channel_read c (BUFFER_SIZE - 1) 0]

/-- What a run through `error_exit` leaves behind when `k` calls of the main line after
`ssh_connect` were made. -/
def failed (env : Env) (k : Nat) (message : String) : Outcome :=
  ⟨⟨(mainLine env.ssh_new env.ssh_channel_new).take (5 + k) ++
      [Call.ssh_get_error env.ssh_new, Call.ssh_free env.ssh_new],
    [],
    bytes message ++ bytes ": " ++ env.ssh_get_error env.ssh_new ++ bytes "\n"⟩,
   Termination.exited EXIT_FAILURE⟩

/-- What the fully successful run leaves behind. -/
def succeeded (env : Env) : Outcome :=
  ⟨⟨mainLine env.ssh_new env.ssh_channel_new ++
      [Call.ssh_channel_close env.ssh_channel_new,
       Call.ssh_channel_free env.ssh_channel_new,
       Call.ssh_disconnect env.ssh_new,
       Call.ssh_free env.ssh_new],
    bytes "NETCONF Server Response:\n" ++ cstr (buffer_after_read env) ++ bytes "\n",
    []⟩,
   Termination.returned 0⟩

/-! ## Vocabulary of the claims -/

/-- The eight library calls whose result `main` checks, in program order. -/
inductive Step where
  | ssh_new
  | ssh_connect
  | ssh_userauth_password
  | ssh_channel_new
  | ssh_channel_open_session
  | ssh_channel_request_subsystem
  | ssh_channel_write
  | ssh_channel_read
  deriving DecidableEq, Repr

/-- Position of a checked step in program order. -/
def Step.index : Step → Nat
  | Step.ssh_new => 0
  | Step.ssh_connect => 1
  | Step.ssh_userauth_password => 2
  | Step.ssh_channel_new => 3
  | Step.ssh_channel_open_session => 4
  | Step.ssh_channel_request_subsystem => 5
  | Step.ssh_channel_write => 6
  | Step.ssh_channel_read => 7

/-- The library's answer for a checked step counts as success. -/
def Step.succeeds (env : Env) : Step → Prop
  | Step.ssh_new => env.ssh_new ≠ NULL
  | Step.ssh_connect => env.ssh_connect = SSH_OK
  | Step.ssh_userauth_password => env.ssh_userauth_password = SSH_AUTH_SUCCESS
  | Step.ssh_channel_new => env.ssh_channel_new ≠ NULL
  | Step.ssh_channel_open_session => env.ssh_channel_open_session = SSH_OK
  | Step.ssh_channel_request_subsystem => env.ssh_channel_request_subsystem = SSH_OK
  | Step.ssh_channel_write => 0 ≤ env.ssh_channel_write
  | Step.ssh_channel_read => 0 ≤ env.ssh_channel_read

/-- The checked step a library call performs, if it is one of the eight. -/
def Call.step : Call → Option Step
  | Call.ssh_new => some Step.ssh_new
  | Call.ssh_connect _ => some Step.ssh_connect
  | Call.ssh_userauth_password _ _ _ => some Step.ssh_userauth_password
  | Call.ssh_channel_new _ => some Step.ssh_channel_new
  | Call.ssh_channel_open_session _ => some Step.ssh_channel_open_session
  | Call.ssh_channel_request_subsystem _ _ => some Step.ssh_channel_request_subsystem
  | Call.ssh_channel_write _ _ _ => some Step.ssh_channel_write
  | Call.ssh_channel_read _ _ _ => some Step.ssh_channel_read
  | _ => none

/-- The outcome of the run whose first failing checked step is `s`. -/
def failedAt (env : Env) : Step → Outcome
  | Step.ssh_new =>
      ⟨⟨[Call.ssh_new], [], bytes "Failed to initialize SSH session.\n"⟩,
        Termination.exited EXIT_FAILURE⟩
  | Step.ssh_connect => failed env 0 "Error connecting to server"
  | Step.ssh_userauth_password => failed env 1 "Authentication failed"
  | Step.ssh_channel_new => failed env 2 "Failed to open channel"
  | Step.ssh_channel_open_session => failed env 3 "Failed to open channel session"
  | Step.ssh_channel_request_subsystem => failed env 4 "Failed to start NETCONF subsystem"
  | Step.ssh_channel_write => failed env 5 "Failed to send NETCONF HELLO message"
  | Step.ssh_channel_read => failed env 6 "Failed to read response from server"

/-- Value of `SSH_ERROR` in `libssh/libssh.h`. -/
def SSH_ERROR : Int := -1

/-- An environment in which `ssh_channel_write` reports an error. -/
def envWriteFails : Env :=
  ⟨1, 0, 0, 0, 0, 0, 2, 0, 0, -1, 0, [], 0, fun _ => bytes "Socket error", fun _ => 170⟩

/-- An environment in which `ssh_new` returns `NULL`; the library's error string is
`out of memory`. -/
def envNoSession : Env :=
  ⟨0, 0, 0, 0, 0, 0, 0, 0, 0, 0, 0, [], 0, fun _ => bytes "out of memory", fun _ => 170⟩

/-- An environment in which every step succeeds and the server sends the three bytes
`A`, NUL, `B`. -/
def envNulReply : Env :=
  ⟨1, 0, 0, 0, 0, 0, 2, 0, 0, 201, 3, [65, 0, 66], 0, fun _ => [], fun _ => 170⟩

instance Step.decidableSucceeds (env : Env) (s : Step) : Decidable (s.succeeds env) := by
  cases s <;> unfold Step.succeeds <;> infer_instance

/-- The seven messages `main` passes to `error_exit`. -/
def errorMessages : List String :=
  ["Error connecting to server",
   "Authentication failed",
   "Failed to open channel",
   "Failed to open channel session",
   "Failed to start NETCONF subsystem",
   "Failed to send NETCONF HELLO message",
   "Failed to read response from server"]

/-- The environment `env` with other return values for the three `ssh_options_set` calls
and for `ssh_channel_close`. -/
def Env.withUnchecked (env : Env) (host port user close : Int) : Env :=
  ⟨env.ssh_new, host, port, user, env.ssh_connect, env.ssh_userauth_password,
   env.ssh_channel_new, env.ssh_channel_open_session, env.ssh_channel_request_subsystem,
   env.ssh_channel_write, env.ssh_channel_read, env.read_data, close, env.ssh_get_error,
   env.stack⟩

/-- An environment in which the three `ssh_options_set` calls report `SSH_ERROR` and every
checked step succeeds. -/
def envOptionsFail : Env := envOk.withUnchecked SSH_ERROR SSH_ERROR SSH_ERROR 0

/-- The call is `ssh_connect`. -/
def Call.isConnect : Call → Bool
  | Call.ssh_connect _ => true
  | _ => false

/-- The call is `ssh_userauth_password`. -/
def Call.isUserauth : Call → Bool
  | Call.ssh_userauth_password _ _ _ => true
  | _ => false

/-- The call is `ssh_channel_write`. -/
def Call.isWrite : Call → Bool
  | Call.ssh_channel_write _ _ _ => true
  | _ => false

/-- The call is `ssh_channel_read`. -/
def Call.isRead : Call → Bool
  | Call.ssh_channel_read _ _ _ => true
  | _ => false

/-- Number of positions of `l` at which `pat` occurs. -/
def occurrences (pat l : List Nat) : Nat :=
  (l.tails.filter (fun t => pat.isPrefixOf t)).length

/-- The NETCONF end-of-message separator. -/
def END_OF_MESSAGE : String := "]]>]]>"

/-- The call is `ssh_free`. -/
def Call.isFree : Call → Bool
  | Call.ssh_free _ => true
  | _ => false

/-- The call is `ssh_channel_close`. -/
def Call.isChannelClose : Call → Bool
  | Call.ssh_channel_close _ => true
  | _ => false

/-- The call is `ssh_channel_free`. -/
def Call.isChannelFree : Call → Bool
  | Call.ssh_channel_free _ => true
  | _ => false

/-- The call is `ssh_disconnect`. -/
def Call.isDisconnect : Call → Bool
  | Call.ssh_disconnect _ => true
  | _ => false

/-- An environment in which the write accepts none of the 201 bytes and returns 0. -/
def envShortWrite : Env :=
  ⟨1, 0, 0, 0, 0, 0, 2, 0, 0, 0, 2, [111, 107], 0, fun _ => [], fun _ => 170⟩

/-! ## Properties -/

theorem main_new_fail (env : Env) (h : env.ssh_new = NULL) :
    main env = ⟨⟨[Call.ssh_new], [], bytes "Failed to initialize SSH session.\n"⟩,
      Termination.exited EXIT_FAILURE⟩ := by
  simp [main, h, World.init, World.call, World.put_stderr]

theorem main_connect_fail (env : Env) (h0 : env.ssh_new ≠ NULL) (h1 : env.ssh_connect ≠ SSH_OK) :
    main env = failed env 0 "Error connecting to server" := by
  simp [main, h0, h1, World.init, World.call, World.put_stderr, error_exit, failed, mainLine,
    callsToConnect]
  decide

theorem main_auth_fail (env : Env) (h0 : env.ssh_new ≠ NULL) (h1 : env.ssh_connect = SSH_OK)
    (h2 : env.ssh_userauth_password ≠ SSH_AUTH_SUCCESS) :
    main env = failed env 1 "Authentication failed" := by
  simp [main, h0, h1, h2, World.init, World.call, World.put_stderr, error_exit, failed, mainLine,
    callsToConnect]
  decide

theorem main_channel_new_fail (env : Env) (h0 : env.ssh_new ≠ NULL) (h1 : env.ssh_connect = SSH_OK)
    (h2 : env.ssh_userauth_password = SSH_AUTH_SUCCESS) (h3 : env.ssh_channel_new = NULL) :
    main env = failed env 2 "Failed to open channel" := by
  simp [main, h0, h1, h2, h3, World.init, World.call, World.put_stderr, error_exit, failed,
    mainLine, callsToConnect]
  decide

theorem main_open_session_fail (env : Env) (h0 : env.ssh_new ≠ NULL)
    (h1 : env.ssh_connect = SSH_OK) (h2 : env.ssh_userauth_password = SSH_AUTH_SUCCESS)
    (h3 : env.ssh_channel_new ≠ NULL) (h4 : env.ssh_channel_open_session ≠ SSH_OK) :
    main env = failed env 3 "Failed to open channel session" := by
  simp [main, h0, h1, h2, h3, h4, World.init, World.call, World.put_stderr, error_exit, failed,
    mainLine, callsToConnect]
  decide

theorem main_subsystem_fail (env : Env) (h0 : env.ssh_new ≠ NULL)
    (h1 : env.ssh_connect = SSH_OK) (h2 : env.ssh_userauth_password = SSH_AUTH_SUCCESS)
    (h3 : env.ssh_channel_new ≠ NULL) (h4 : env.ssh_channel_open_session = SSH_OK)
    (h5 : env.ssh_channel_request_subsystem ≠ SSH_OK) :
    main env = failed env 4 "Failed to start NETCONF subsystem" := by
  simp [main, h0, h1, h2, h3, h4, h5, World.init, World.call, World.put_stderr, error_exit,
    failed, mainLine, callsToConnect]
  decide

theorem main_write_fail (env : Env) (h0 : env.ssh_new ≠ NULL)
    (h1 : env.ssh_connect = SSH_OK) (h2 : env.ssh_userauth_password = SSH_AUTH_SUCCESS)
    (h3 : env.ssh_channel_new ≠ NULL) (h4 : env.ssh_channel_open_session = SSH_OK)
    (h5 : env.ssh_channel_request_subsystem = SSH_OK) (h6 : env.ssh_channel_write < 0) :
    main env = failed env 5 "Failed to send NETCONF HELLO message" := by
  simp [main, h0, h1, h2, h3, h4, h5, h6, World.init, World.call, World.put_stderr, error_exit,
    failed, mainLine, callsToConnect]
  decide

theorem main_read_fail (env : Env) (h0 : env.ssh_new ≠ NULL)
    (h1 : env.ssh_connect = SSH_OK) (h2 : env.ssh_userauth_password = SSH_AUTH_SUCCESS)
    (h3 : env.ssh_channel_new ≠ NULL) (h4 : env.ssh_channel_open_session = SSH_OK)
    (h5 : env.ssh_channel_request_subsystem = SSH_OK) (h6 : 0 ≤ env.ssh_channel_write)
    (h7 : env.ssh_channel_read < 0) :
    main env = failed env 6 "Failed to read response from server" := by
  simp [main, h0, h1, h2, h3, h4, h5, not_lt.mpr h6, h7, World.init, World.call,
    World.put_stderr, error_exit, failed, mainLine, callsToConnect]
  decide

theorem main_success (env : Env) (h0 : env.ssh_new ≠ NULL)
    (h1 : env.ssh_connect = SSH_OK) (h2 : env.ssh_userauth_password = SSH_AUTH_SUCCESS)
    (h3 : env.ssh_channel_new ≠ NULL) (h4 : env.ssh_channel_open_session = SSH_OK)
    (h5 : env.ssh_channel_request_subsystem = SSH_OK) (h6 : 0 ≤ env.ssh_channel_write)
    (h7 : 0 ≤ env.ssh_channel_read) :
    main env = succeeded env := by
  simp [main, h0, h1, h2, h3, h4, h5, not_lt.mpr h6, not_lt.mpr h7, World.init, World.call,
    World.put_stdout, succeeded, mainLine, callsToConnect]

/-- The run is one of nine: `ssh_new` fails, one of the seven later checks fails, or all pass. -/
theorem main_cases (env : Env) :
    (env.ssh_new = NULL ∧
      main env = ⟨⟨[Call.ssh_new], [], bytes "Failed to initialize SSH session.\n"⟩,
        Termination.exited EXIT_FAILURE⟩) ∨
    (env.ssh_new ≠ NULL ∧ env.ssh_connect ≠ SSH_OK ∧
      main env = failed env 0 "Error connecting to server") ∨
    (env.ssh_new ≠ NULL ∧ env.ssh_connect = SSH_OK ∧
      env.ssh_userauth_password ≠ SSH_AUTH_SUCCESS ∧
      main env = failed env 1 "Authentication failed") ∨
    (env.ssh_new ≠ NULL ∧ env.ssh_connect = SSH_OK ∧
      env.ssh_userauth_password = SSH_AUTH_SUCCESS ∧ env.ssh_channel_new = NULL ∧
      main env = failed env 2 "Failed to open channel") ∨
    (env.ssh_new ≠ NULL ∧ env.ssh_connect = SSH_OK ∧
      env.ssh_userauth_password = SSH_AUTH_SUCCESS ∧ env.ssh_channel_new ≠ NULL ∧
      env.ssh_channel_open_session ≠ SSH_OK ∧
      main env = failed env 3 "Failed to open channel session") ∨
    (env.ssh_new ≠ NULL ∧ env.ssh_connect = SSH_OK ∧
      env.ssh_userauth_password = SSH_AUTH_SUCCESS ∧ env.ssh_channel_new ≠ NULL ∧
      env.ssh_channel_open_session = SSH_OK ∧ env.ssh_channel_request_subsystem ≠ SSH_OK ∧
      main env = failed env 4 "Failed to start NETCONF subsystem") ∨
    (env.ssh_new ≠ NULL ∧ env.ssh_connect = SSH_OK ∧
      env.ssh_userauth_password = SSH_AUTH_SUCCESS ∧ env.ssh_channel_new ≠ NULL ∧
      env.ssh_channel_open_session = SSH_OK ∧ env.ssh_channel_request_subsystem = SSH_OK ∧
      env.ssh_channel_write < 0 ∧
      main env = failed env 5 "Failed to send NETCONF HELLO message") ∨
    (env.ssh_new ≠ NULL ∧ env.ssh_connect = SSH_OK ∧
      env.ssh_userauth_password = SSH_AUTH_SUCCESS ∧ env.ssh_channel_new ≠ NULL ∧
      env.ssh_channel_open_session = SSH_OK ∧ env.ssh_channel_request_subsystem = SSH_OK ∧
      0 ≤ env.ssh_channel_write ∧ env.ssh_channel_read < 0 ∧
      main env = failed env 6 "Failed to read response from server") ∨
    (env.ssh_new ≠ NULL ∧ env.ssh_connect = SSH_OK ∧
      env.ssh_userauth_password = SSH_AUTH_SUCCESS ∧ env.ssh_channel_new ≠ NULL ∧
      env.ssh_channel_open_session = SSH_OK ∧ env.ssh_channel_request_subsystem = SSH_OK ∧
      0 ≤ env.ssh_channel_write ∧ 0 ≤ env.ssh_channel_read ∧
      main env = succeeded env) := by
  by_cases h0 : env.ssh_new = NULL
  · exact Or.inl ⟨h0, main_new_fail env h0⟩
  by_cases h1 : env.ssh_connect = SSH_OK
  swap
  · exact Or.inr (Or.inl ⟨h0, h1, main_connect_fail env h0 h1⟩)
  by_cases h2 : env.ssh_userauth_password = SSH_AUTH_SUCCESS
  swap
  · exact Or.inr (Or.inr (Or.inl ⟨h0, h1, h2, main_auth_fail env h0 h1 h2⟩))
  by_cases h3 : env.ssh_channel_new = NULL
  · exact Or.inr (Or.inr (Or.inr (Or.inl ⟨h0, h1, h2, h3, main_channel_new_fail env h0 h1 h2 h3⟩)))
  by_cases h4 : env.ssh_channel_open_session = SSH_OK
  swap
  · exact Or.inr (Or.inr (Or.inr (Or.inr (Or.inl
      ⟨h0, h1, h2, h3, h4, main_open_session_fail env h0 h1 h2 h3 h4⟩))))
  by_cases h5 : env.ssh_channel_request_subsystem = SSH_OK
  swap
  · exact Or.inr (Or.inr (Or.inr (Or.inr (Or.inr (Or.inl
      ⟨h0, h1, h2, h3, h4, h5, main_subsystem_fail env h0 h1 h2 h3 h4 h5⟩)))))
  by_cases h6 : env.ssh_channel_write < 0
  · exact Or.inr (Or.inr (Or.inr (Or.inr (Or.inr (Or.inr (Or.inl
      ⟨h0, h1, h2, h3, h4, h5, h6, main_write_fail env h0 h1 h2 h3 h4 h5 h6⟩))))))
  have h6' : 0 ≤ env.ssh_channel_write := not_lt.mp h6
  by_cases h7 : env.ssh_channel_read < 0
  · exact Or.inr (Or.inr (Or.inr (Or.inr (Or.inr (Or.inr (Or.inr (Or.inl
      ⟨h0, h1, h2, h3, h4, h5, h6', h7, main_read_fail env h0 h1 h2 h3 h4 h5 h6' h7⟩)))))))
  have h7' : 0 ≤ env.ssh_channel_read := not_lt.mp h7
  exact Or.inr (Or.inr (Or.inr (Or.inr (Or.inr (Or.inr (Or.inr (Or.inr
      ⟨h0, h1, h2, h3, h4, h5, h6', h7', main_success env h0 h1 h2 h3 h4 h5 h6' h7'⟩)))))))

/-! ## The receive buffer -/

theorem cstr_length_le (mem : List Nat) : (cstr mem).length ≤ mem.length := by
  unfold cstr
  exact (List.takeWhile_sublist _).length_le

theorem cstr_append_zero (d rest : List Nat) : cstr (d ++ 0 :: rest) = cstr d := by
  induction d with
  | nil => simp [cstr]
  | cons a t ih =>
    unfold cstr at ih ⊢
    by_cases ha : a = 0
    · simp [ha]
    · simp [List.takeWhile_cons, ha, ih]

theorem cstr_eq_self (d : List Nat) (h : 0 ∉ d) : cstr d = d := by
  unfold cstr
  rw [List.takeWhile_eq_self_iff]
  intro b hb
  have : b ≠ 0 := fun hb0 => h (hb0 ▸ hb)
  simpa using this

theorem buffer_uninit_length (env : Env) : (buffer_uninit env).length = BUFFER_SIZE := by
  simp [buffer_uninit]

/-- After `memset(buffer, 0, sizeof(buffer))` every byte of the buffer is zero. -/
theorem memset_buffer (env : Env) :
    memset (buffer_uninit env) 0 BUFFER_SIZE = List.replicate BUFFER_SIZE 0 := by
  unfold memset
  rw [List.drop_of_length_le (le_of_eq (buffer_uninit_length env)), List.append_nil]

theorem buffer_after_read_eq (env : Env) :
    buffer_after_read env
      = env.read_data ++ List.replicate (BUFFER_SIZE - env.read_data.length) 0 := by
  unfold buffer_after_read store
  rw [memset_buffer, List.drop_replicate]

theorem buffer_after_read_length (env : Env) (h : env.read_data.length ≤ BUFFER_SIZE - 1) :
    (buffer_after_read env).length = BUFFER_SIZE := by
  rw [buffer_after_read_eq]
  simp [BUFFER_SIZE] at h ⊢
  omega

theorem buffer_after_read_last (env : Env) (h : env.read_data.length ≤ BUFFER_SIZE - 1) :
    (buffer_after_read env)[BUFFER_SIZE - 1]? = some 0 := by
  rw [buffer_after_read_eq]
  simp only [BUFFER_SIZE] at h ⊢
  rw [List.getElem?_append_right (by omega)]
  rw [List.getElem?_replicate]
  simp
  omega

theorem cstr_buffer_after_read (env : Env) (h : env.read_data.length ≤ BUFFER_SIZE - 1) :
    cstr (buffer_after_read env) = cstr env.read_data := by
  rw [buffer_after_read_eq]
  obtain ⟨k, hk⟩ : ∃ k, BUFFER_SIZE - env.read_data.length = k + 1 := by
    refine ⟨BUFFER_SIZE - env.read_data.length - 1, ?_⟩
    simp only [BUFFER_SIZE] at h ⊢
    omega
  rw [hk, List.replicate_succ, cstr_append_zero]

/-! ## First failing step -/

theorem main_failedAt (env : Env) (s : Step) (hs : ¬ s.succeeds env)
    (hpre : ∀ t : Step, t.index < s.index → t.succeeds env) : main env = failedAt env s := by
  have p0 := hpre Step.ssh_new
  have p1 := hpre Step.ssh_connect
  have p2 := hpre Step.ssh_userauth_password
  have p3 := hpre Step.ssh_channel_new
  have p4 := hpre Step.ssh_channel_open_session
  have p5 := hpre Step.ssh_channel_request_subsystem
  have p6 := hpre Step.ssh_channel_write
  cases s <;> simp only [Step.succeeds, Step.index, failedAt] at *
  · exact main_new_fail env (not_not.mp hs)
  · exact main_connect_fail env (p0 (by decide)) hs
  · exact main_auth_fail env (p0 (by decide)) (p1 (by decide)) hs
  · exact main_channel_new_fail env (p0 (by decide)) (p1 (by decide)) (p2 (by decide))
      (not_not.mp hs)
  · exact main_open_session_fail env (p0 (by decide)) (p1 (by decide)) (p2 (by decide))
      (p3 (by decide)) hs
  · exact main_subsystem_fail env (p0 (by decide)) (p1 (by decide)) (p2 (by decide))
      (p3 (by decide)) (p4 (by decide)) hs
  · exact main_write_fail env (p0 (by decide)) (p1 (by decide)) (p2 (by decide))
      (p3 (by decide)) (p4 (by decide)) (p5 (by decide)) (not_le.mp hs)
  · exact main_read_fail env (p0 (by decide)) (p1 (by decide)) (p2 (by decide))
      (p3 (by decide)) (p4 (by decide)) (p5 (by decide)) (p6 (by decide)) (not_le.mp hs)

theorem main_all_succeed (env : Env) (h : ∀ t : Step, t.succeeds env) : main env = succeeded env :=
  main_success env (h Step.ssh_new) (h Step.ssh_connect) (h Step.ssh_userauth_password)
    (h Step.ssh_channel_new) (h Step.ssh_channel_open_session)
    (h Step.ssh_channel_request_subsystem) (h Step.ssh_channel_write) (h Step.ssh_channel_read)

theorem failedAt_term (env : Env) (s : Step) :
    (failedAt env s).term = Termination.exited EXIT_FAILURE := by
  cases s <;> rfl

theorem failedAt_stdout (env : Env) (s : Step) : (failedAt env s).world.stdout = [] := by
  cases s <;> rfl

theorem failedAt_no_later_step (env : Env) (s t : Step) (hst : s.index < t.index) :
    ∀ c ∈ (failedAt env s).world.calls, c.step ≠ some t := by
  cases s <;> cases t <;> simp [Step.index] at hst <;>
    simp [failedAt, failed, mainLine, callsToConnect, Call.step]

/-- Every run has a first failing step or none at all. -/
theorem first_failure (env : Env) :
    (∀ t : Step, t.succeeds env) ∨
    ∃ s : Step, ¬ s.succeeds env ∧ ∀ t : Step, t.index < s.index → t.succeeds env := by
  rcases main_cases env with h | h | h | h | h | h | h | h | h
  · refine Or.inr ⟨Step.ssh_new, ?_, ?_⟩
    · simp [Step.succeeds, h.1]
    · intro t ht; cases t <;> simp [Step.index] at ht
  · refine Or.inr ⟨Step.ssh_connect, ?_, ?_⟩
    · simp [Step.succeeds, h.2.1]
    · intro t ht; cases t <;> simp [Step.index] at ht; simp [Step.succeeds, h.1]
  · obtain ⟨a0, a1, a2, -⟩ := h
    refine Or.inr ⟨Step.ssh_userauth_password, ?_, ?_⟩
    · simp [Step.succeeds, a2]
    · intro t ht; cases t <;> simp [Step.index] at ht <;> simp [Step.succeeds, *]
  · obtain ⟨a0, a1, a2, a3, -⟩ := h
    refine Or.inr ⟨Step.ssh_channel_new, ?_, ?_⟩
    · simp [Step.succeeds, a3]
    · intro t ht; cases t <;> simp [Step.index] at ht <;> simp [Step.succeeds, *]
  · obtain ⟨a0, a1, a2, a3, a4, -⟩ := h
    refine Or.inr ⟨Step.ssh_channel_open_session, ?_, ?_⟩
    · simp [Step.succeeds, a4]
    · intro t ht; cases t <;> simp [Step.index] at ht <;> simp [Step.succeeds, *]
  · obtain ⟨a0, a1, a2, a3, a4, a5, -⟩ := h
    refine Or.inr ⟨Step.ssh_channel_request_subsystem, ?_, ?_⟩
    · simp [Step.succeeds, a5]
    · intro t ht; cases t <;> simp [Step.index] at ht <;> simp [Step.succeeds, *]
  · obtain ⟨a0, a1, a2, a3, a4, a5, a6, -⟩ := h
    refine Or.inr ⟨Step.ssh_channel_write, ?_, ?_⟩
    · simp [Step.succeeds, a6]
    · intro t ht; cases t <;> simp [Step.index] at ht <;> simp [Step.succeeds, *]
  · obtain ⟨a0, a1, a2, a3, a4, a5, a6, a7, -⟩ := h
    refine Or.inr ⟨Step.ssh_channel_read, ?_, ?_⟩
    · simp [Step.succeeds, a7]
    · intro t ht; cases t <;> simp [Step.index] at ht <;> simp [Step.succeeds, *]
  · obtain ⟨a0, a1, a2, a3, a4, a5, a6, a7, -⟩ := h
    exact Or.inl (fun t => by cases t <;> simp [Step.succeeds, *])

/-! ## C1: the call sequence of the successful run -/

/-- C1: in every environment where `ssh_new` returns a session and `ssh_connect`,
`ssh_userauth_password`, `ssh_channel_new`, `ssh_channel_open_session`,
`ssh_channel_request_subsystem`, `ssh_channel_write` and `ssh_channel_read` all report
success, `main` makes exactly the fifteen listed library calls, in the listed order and with
the listed arguments, and then returns 0. -/
theorem main_success_call_sequence (env : Env)
    (h_new : env.ssh_new ≠ NULL)
    (h_connect : env.ssh_connect = SSH_OK)
    (h_auth : env.ssh_userauth_password = SSH_AUTH_SUCCESS)
    (h_channel : env.ssh_channel_new ≠ NULL)
    (h_open : env.ssh_channel_open_session = SSH_OK)
    (h_subsystem : env.ssh_channel_request_subsystem = SSH_OK)
    (h_write : 0 ≤ env.ssh_channel_write)
    (h_read : 0 ≤ env.ssh_channel_read) :
    (main env).world.calls =
      [Call.ssh_new,
       Call.ssh_options_set env.ssh_new SshOption.SSH_OPTIONS_HOST "10.147.40.55",
       Call.ssh_options_set env.ssh_new SshOption.SSH_OPTIONS_PORT_STR "2022",
       Call.ssh_options_set env.ssh_new SshOption.SSH_OPTIONS_USER "admin",
       Call.ssh_connect env.ssh_new,
       Call.ssh_userauth_password env.ssh_new none "admin",
       Call.ssh_channel_new env.ssh_new,
       Call.ssh_channel_open_session env.ssh_channel_new,
       Call.ssh_channel_request_subsystem env.ssh_channel_new "netconf",
       Call.ssh_channel_write env.ssh_channel_new (literal NETCONF_HELLO)
         (strlen (literal NETCONF_HELLO)),
       Call.ssh_channel_read env.ssh_channel_new 4095 0,
       Call.ssh_channel_close env.ssh_channel_new,
       Call.ssh_channel_free env.ssh_channel_new,
       Call.ssh_disconnect env.ssh_new,
       Call.ssh_free env.ssh_new] ∧
    (main env).term = Termination.returned 0 := by
  rw [main_success env h_new h_connect h_auth h_channel h_open h_subsystem h_write h_read]
  exact ⟨rfl, rfl⟩

/-- C1 at `envOk`: the hypotheses hold there and the fifteen calls follow. -/
theorem main_success_call_sequence_witness :
    (main envOk).world.calls =
      [Call.ssh_new,
       Call.ssh_options_set 1 SshOption.SSH_OPTIONS_HOST "10.147.40.55",
       Call.ssh_options_set 1 SshOption.SSH_OPTIONS_PORT_STR "2022",
       Call.ssh_options_set 1 SshOption.SSH_OPTIONS_USER "admin",
       Call.ssh_connect 1,
       Call.ssh_userauth_password 1 none "admin",
       Call.ssh_channel_new 1,
       Call.ssh_channel_open_session 2,
       Call.ssh_channel_request_subsystem 2 "netconf",
       Call.ssh_channel_write 2 (literal NETCONF_HELLO) (strlen (literal NETCONF_HELLO)),
       Call.ssh_channel_read 2 4095 0,
       Call.ssh_channel_close 2,
       Call.ssh_channel_free 2,
       Call.ssh_disconnect 1,
       Call.ssh_free 1] ∧
    (main envOk).term = Termination.returned 0 :=
  main_success_call_sequence envOk (by decide) (by decide) (by decide) (by decide) (by decide)
    (by decide) (by decide) (by decide)

/-! ## C2: return value and first failing step -/

/-- C2: `main` returns 0 exactly when all eight checked steps succeed; and when `s` is the
first checked step that fails, the process exits with `EXIT_FAILURE`, no call of a later
checked step is made, and standard output stays empty. -/
theorem main_returns_zero_iff_all_steps_succeed (env : Env) :
    ((main env).term = Termination.returned 0 ↔ ∀ s : Step, s.succeeds env) ∧
    ∀ s : Step, ¬ s.succeeds env → (∀ t : Step, t.index < s.index → t.succeeds env) →
      (main env).term = Termination.exited EXIT_FAILURE ∧
      (∀ t : Step, s.index < t.index → ∀ c ∈ (main env).world.calls, c.step ≠ some t) ∧
      (main env).world.stdout = [] := by
  constructor
  · constructor
    · intro h
      rcases first_failure env with hall | ⟨s, hs, hpre⟩
      · exact hall
      · rw [main_failedAt env s hs hpre, failedAt_term] at h
        exact absurd h (by decide)
    · intro h
      rw [main_all_succeed env h]
      rfl
  · intro s hs hpre
    rw [main_failedAt env s hs hpre]
    exact ⟨failedAt_term env s, fun t ht => failedAt_no_later_step env s t ht,
      failedAt_stdout env s⟩

/-- C2 at `envWriteFails`, where the write is the first step to fail. -/
theorem main_returns_zero_iff_all_steps_succeed_witness :
    ¬ Step.ssh_channel_write.succeeds envWriteFails ∧
    (∀ t : Step, t.index < Step.ssh_channel_write.index → t.succeeds envWriteFails) ∧
    (main envWriteFails).term = Termination.exited EXIT_FAILURE ∧
    (∀ t : Step, Step.ssh_channel_write.index < t.index →
      ∀ c ∈ (main envWriteFails).world.calls, c.step ≠ some t) ∧
    (main envWriteFails).world.stdout = [] :=
  ⟨by decide, fun t ht => by cases t <;> first | decide | exact absurd ht (by decide),
    (main_returns_zero_iff_all_steps_succeed envWriteFails).2 Step.ssh_channel_write (by decide)
      (fun t ht => by cases t <;> first | decide | exact absurd ht (by decide))⟩

/-! ## C3: what a failing run writes to standard error -/

theorem main_of_returned (env : Env) (h : (main env).term = Termination.returned 0) :
    main env = succeeded env := by
  rcases first_failure env with hall | ⟨s, hs, hpre⟩
  · exact main_all_succeed env hall
  · rw [main_failedAt env s hs hpre, failedAt_term] at h
    exact absurd h (by decide)

theorem main_of_not_returned (env : Env) (h : (main env).term ≠ Termination.returned 0) :
    ∃ s : Step, ¬ s.succeeds env ∧ (∀ t : Step, t.index < s.index → t.succeeds env) ∧
      main env = failedAt env s := by
  rcases first_failure env with hall | ⟨s, hs, hpre⟩
  · exact absurd (by rw [main_all_succeed env hall]; rfl) h
  · exact ⟨s, hs, hpre, main_failedAt env s hs hpre⟩

/-- C3 fails as stated: when `ssh_new` returns `NULL` the run fails with status 1, yet
`ssh_get_error` is never called and standard error holds only the fixed text
`Failed to initialize SSH session.`, which does not contain the library's error string. -/
theorem ssh_new_failure_omits_error_string :
    (main envNoSession).term = Termination.exited 1 ∧
    (main envNoSession).world.stderr = bytes "Failed to initialize SSH session.\n" ∧
    (∀ s : Nat, Call.ssh_get_error s ∉ (main envNoSession).world.calls) ∧
    envNoSession.ssh_get_error envNoSession.ssh_new = bytes "out of memory" ∧
    ¬ (envNoSession.ssh_get_error envNoSession.ssh_new <:+: (main envNoSession).world.stderr) := by
  rw [main_new_fail envNoSession rfl]
  refine ⟨rfl, rfl, ?_, rfl, ?_⟩
  · intro s; simp
  · decide

theorem failedAt_stderr (env : Env) (s : Step) (hs : s ≠ Step.ssh_new) :
    ∃ m ∈ errorMessages, (failedAt env s).world.stderr =
      bytes m ++ bytes ": " ++ env.ssh_get_error env.ssh_new ++ bytes "\n" := by
  cases s
  · exact absurd rfl hs
  all_goals simp [failedAt, failed, errorMessages]

/-- C3 as amended: every failing run exits with status 1.  When `ssh_new` returned a session,
standard error is one of the seven messages, `: `, the string `ssh_get_error` returns for
that session, and a newline, so it contains the library's error string.  When `ssh_new`
returned `NULL`, `ssh_get_error` is not called and standard error is exactly
`Failed to initialize SSH session.` and a newline. -/
theorem failing_run_exit_status_and_stderr (env : Env)
    (h : (main env).term ≠ Termination.returned 0) :
    (main env).term = Termination.exited 1 ∧
    (env.ssh_new ≠ NULL →
      (∃ m ∈ errorMessages, (main env).world.stderr =
        bytes m ++ bytes ": " ++ env.ssh_get_error env.ssh_new ++ bytes "\n") ∧
      env.ssh_get_error env.ssh_new <:+: (main env).world.stderr) ∧
    (env.ssh_new = NULL →
      (main env).world.stderr = bytes "Failed to initialize SSH session.\n" ∧
      ∀ s : Nat, Call.ssh_get_error s ∉ (main env).world.calls) := by
  obtain ⟨s, hs, -, hm⟩ := main_of_not_returned env h
  refine ⟨by rw [hm, failedAt_term]; rfl, ?_, ?_⟩
  · intro h0
    have hne : s ≠ Step.ssh_new := by
      rintro rfl
      exact hs h0
    obtain ⟨m, hmem, hst⟩ := failedAt_stderr env s hne
    rw [hm]
    refine ⟨⟨m, hmem, hst⟩, ?_⟩
    rw [hst]
    exact List.infix_append _ _ _
  · intro h0
    rw [main_new_fail env h0]
    exact ⟨rfl, fun s => by simp⟩

/-- C3 as amended, at `envWriteFails`: the run fails there. -/
theorem failing_run_exit_status_and_stderr_witness :
    (main envWriteFails).term ≠ Termination.returned 0 ∧
    (main envWriteFails).term = Termination.exited 1 ∧
    (envWriteFails.ssh_new ≠ NULL →
      (∃ m ∈ errorMessages, (main envWriteFails).world.stderr =
        bytes m ++ bytes ": " ++ envWriteFails.ssh_get_error envWriteFails.ssh_new ++ bytes "\n") ∧
      envWriteFails.ssh_get_error envWriteFails.ssh_new <:+: (main envWriteFails).world.stderr) ∧
    (envWriteFails.ssh_new = NULL →
      (main envWriteFails).world.stderr = bytes "Failed to initialize SSH session.\n" ∧
      ∀ s : Nat, Call.ssh_get_error s ∉ (main envWriteFails).world.calls) :=
  ⟨by decide, failing_run_exit_status_and_stderr envWriteFails (by decide)⟩

/-! ## C4: standard output of a successful run -/

theorem succeeded_stdout (env : Env) (hr : env.read_data.length ≤ 4095) :
    (succeeded env).world.stdout =
      bytes "NETCONF Server Response:\n" ++ cstr env.read_data ++ bytes "\n" := by
  show bytes "NETCONF Server Response:\n" ++ cstr (buffer_after_read env) ++ bytes "\n" = _
  rw [cstr_buffer_after_read env hr]

/-- C4 fails as stated: the server sends `A`, NUL, `B` (three bytes, read result 3), the run
succeeds, and standard output is the header, `A` and a newline; the bytes from the NUL on are
not printed. -/
theorem nul_byte_truncates_printed_response :
    (main envNulReply).term = Termination.returned 0 ∧
    envNulReply.read_data = [65, 0, 66] ∧
    envNulReply.read_data.length ≤ 4095 ∧
    (main envNulReply).world.stdout = bytes "NETCONF Server Response:\n" ++ [65] ++ bytes "\n" ∧
    (main envNulReply).world.stdout ≠
      bytes "NETCONF Server Response:\n" ++ envNulReply.read_data ++ bytes "\n" := by
  have hm : main envNulReply = succeeded envNulReply :=
    main_success envNulReply (by decide) (by decide) (by decide) (by decide) (by decide)
      (by decide) (by decide) (by decide)
  have hout := succeeded_stdout envNulReply (by decide)
  rw [hm, hout]
  refine ⟨rfl, rfl, by decide, by decide, by decide⟩

/-- C4 as amended: on every successful run in which `ssh_channel_read` stores a byte
sequence `r` of length at most 4095, standard output is the header line, the bytes of `r`
before its first NUL byte, and a newline.  When `r` has no NUL byte all of `r` is printed,
and an empty `r` prints the header line and an empty line. -/
theorem successful_run_stdout (env : Env) (h : (main env).term = Termination.returned 0)
    (hr : env.read_data.length ≤ 4095) :
    (main env).world.stdout =
      bytes "NETCONF Server Response:\n" ++ env.read_data.takeWhile (fun b => b != 0)
        ++ bytes "\n" ∧
    (0 ∉ env.read_data → (main env).world.stdout =
      bytes "NETCONF Server Response:\n" ++ env.read_data ++ bytes "\n") ∧
    (env.read_data = [] → (main env).world.stdout =
      bytes "NETCONF Server Response:\n" ++ bytes "\n") := by
  rw [main_of_returned env h, succeeded_stdout env hr]
  refine ⟨rfl, ?_, ?_⟩
  · intro h0
    rw [cstr_eq_self _ h0]
  · intro h0
    rw [h0]
    rfl

/-- C4 as amended, at `envOk`, where the server sends `ok`. -/
theorem successful_run_stdout_witness :
    (main envOk).term = Termination.returned 0 ∧ envOk.read_data.length ≤ 4095 ∧
    (main envOk).world.stdout =
      bytes "NETCONF Server Response:\n" ++ envOk.read_data.takeWhile (fun b => b != 0)
        ++ bytes "\n" ∧
    (0 ∉ envOk.read_data → (main envOk).world.stdout =
      bytes "NETCONF Server Response:\n" ++ envOk.read_data ++ bytes "\n") ∧
    (envOk.read_data = [] → (main envOk).world.stdout =
      bytes "NETCONF Server Response:\n" ++ bytes "\n") :=
  ⟨by decide, by decide, successful_run_stdout envOk (by decide) (by decide)⟩

/-! ## C5: which return values are examined -/

/-- C5 fails as stated: all three `ssh_options_set` calls report `SSH_ERROR`, and the program
prints nothing to standard error, goes on to `ssh_connect` and the rest of the sequence, and
returns 0. -/
theorem options_set_failure_is_ignored :
    envOptionsFail.ssh_options_set_host = SSH_ERROR ∧
    envOptionsFail.ssh_options_set_port = SSH_ERROR ∧
    envOptionsFail.ssh_options_set_user = SSH_ERROR ∧
    (main envOptionsFail).world.stderr = [] ∧
    (main envOptionsFail).term = Termination.returned 0 ∧
    (main envOptionsFail).world.calls =
      [Call.ssh_new,
       Call.ssh_options_set 1 SshOption.SSH_OPTIONS_HOST "10.147.40.55",
       Call.ssh_options_set 1 SshOption.SSH_OPTIONS_PORT_STR "2022",
       Call.ssh_options_set 1 SshOption.SSH_OPTIONS_USER "admin",
       Call.ssh_connect 1,
       Call.ssh_userauth_password 1 none "admin",
       Call.ssh_channel_new 1,
       Call.ssh_channel_open_session 2,
       Call.ssh_channel_request_subsystem 2 "netconf",
       Call.ssh_channel_write 2 (literal NETCONF_HELLO) (strlen (literal NETCONF_HELLO)),
       Call.ssh_channel_read 2 4095 0,
       Call.ssh_channel_close 2,
       Call.ssh_channel_free 2,
       Call.ssh_disconnect 1,
       Call.ssh_free 1] := by
  have hm : main envOptionsFail = succeeded envOptionsFail :=
    main_success envOptionsFail (by decide) (by decide) (by decide) (by decide) (by decide)
      (by decide) (by decide) (by decide)
  rw [hm]
  exact ⟨rfl, rfl, rfl, rfl, rfl, rfl⟩

theorem failedAt_calls (env : Env) (s : Step) :
    ∃ pre c, c.step = some s ∧
      ((failedAt env s).world.calls = pre ++ [c] ∨
       (failedAt env s).world.calls =
         pre ++ [c, Call.ssh_get_error env.ssh_new, Call.ssh_free env.ssh_new]) := by
  cases s
  · exact ⟨[], Call.ssh_new, rfl, Or.inl rfl⟩
  · exact ⟨(mainLine env.ssh_new env.ssh_channel_new).take 4, Call.ssh_connect env.ssh_new, rfl,
      Or.inr rfl⟩
  · exact ⟨(mainLine env.ssh_new env.ssh_channel_new).take 5,
      Call.ssh_userauth_password env.ssh_new none "admin", rfl, Or.inr rfl⟩
  · exact ⟨(mainLine env.ssh_new env.ssh_channel_new).take 6,
      Call.ssh_channel_new env.ssh_new, rfl, Or.inr rfl⟩
  · exact ⟨(mainLine env.ssh_new env.ssh_channel_new).take 7,
      Call.ssh_channel_open_session env.ssh_channel_new, rfl, Or.inr rfl⟩
  · exact ⟨(mainLine env.ssh_new env.ssh_channel_new).take 8,
      Call.ssh_channel_request_subsystem env.ssh_channel_new "netconf", rfl, Or.inr rfl⟩
  · exact ⟨(mainLine env.ssh_new env.ssh_channel_new).take 9,
      Call.ssh_channel_write env.ssh_channel_new (literal NETCONF_HELLO)
        (strlen (literal NETCONF_HELLO)), rfl, Or.inr rfl⟩
  · exact ⟨(mainLine env.ssh_new env.ssh_channel_new).take 10,
      Call.ssh_channel_read env.ssh_channel_new (BUFFER_SIZE - 1) 0, rfl, Or.inr rfl⟩

theorem failedAt_stderr_ne_nil (env : Env) (s : Step) : (failedAt env s).world.stderr ≠ [] := by
  have hnl : bytes "\n" ≠ [] := by decide
  cases s
  · show bytes "Failed to initialize SSH session.\n" ≠ []
    decide
  all_goals simp [failedAt, failed, hnl]

/-- C5 as amended: when one of the eight checked calls is the first to report failure, the
program writes an error to standard error and exits with `EXIT_FAILURE`; the failing call is
its last call apart from the `ssh_get_error` and `ssh_free` of `error_exit`, and no later
checked step is called.  The return values of the three `ssh_options_set` calls and of
`ssh_channel_close` are not examined: the run is the same whatever they are. -/
theorem checked_failures_exit_unchecked_results_ignored (env : Env) :
    (∀ s : Step, ¬ s.succeeds env → (∀ t : Step, t.index < s.index → t.succeeds env) →
      (main env).world.stderr ≠ [] ∧
      (main env).term = Termination.exited EXIT_FAILURE ∧
      (∃ pre c, c.step = some s ∧
        ((main env).world.calls = pre ++ [c] ∨
         (main env).world.calls =
           pre ++ [c, Call.ssh_get_error env.ssh_new, Call.ssh_free env.ssh_new])) ∧
      ∀ t : Step, s.index < t.index → ∀ c ∈ (main env).world.calls, c.step ≠ some t) ∧
    ∀ host port user close : Int, main (env.withUnchecked host port user close) = main env := by
  constructor
  · intro s hs hpre
    rw [main_failedAt env s hs hpre]
    exact ⟨failedAt_stderr_ne_nil env s, failedAt_term env s, failedAt_calls env s,
      fun t ht => failedAt_no_later_step env s t ht⟩
  · intro host port user close
    rfl

/-- C5 as amended, at `envWriteFails`, where the write is the first step to fail. -/
theorem checked_failures_exit_unchecked_results_ignored_witness :
    ¬ Step.ssh_channel_write.succeeds envWriteFails ∧
    (main envWriteFails).world.stderr ≠ [] ∧
    (main envWriteFails).term = Termination.exited EXIT_FAILURE ∧
    (∃ pre c, c.step = some Step.ssh_channel_write ∧
      ((main envWriteFails).world.calls = pre ++ [c] ∨
       (main envWriteFails).world.calls =
         pre ++ [c, Call.ssh_get_error envWriteFails.ssh_new,
           Call.ssh_free envWriteFails.ssh_new])) ∧
    ∀ t : Step, Step.ssh_channel_write.index < t.index →
      ∀ c ∈ (main envWriteFails).world.calls, c.step ≠ some t :=
  ⟨by decide,
    (checked_failures_exit_unchecked_results_ignored envWriteFails).1 Step.ssh_channel_write
      (by decide) (fun t ht => by cases t <;> first | decide | exact absurd ht (by decide))⟩

/-! ## C6: one connect, one authentication, one write, one read -/

theorem failedAt_counts (env : Env) (s : Step) :
    (failedAt env s).world.calls.countP Call.isConnect ≤ 1 ∧
    (failedAt env s).world.calls.countP Call.isUserauth ≤ 1 ∧
    (failedAt env s).world.calls.countP Call.isWrite ≤ 1 ∧
    (failedAt env s).world.calls.countP Call.isRead ≤ 1 := by
  cases s <;>
    simp [failedAt, failed, mainLine, callsToConnect, List.countP_cons, Call.isConnect,
      Call.isUserauth, Call.isWrite, Call.isRead]

theorem succeeded_counts (env : Env) :
    (succeeded env).world.calls.countP Call.isConnect ≤ 1 ∧
    (succeeded env).world.calls.countP Call.isUserauth ≤ 1 ∧
    (succeeded env).world.calls.countP Call.isWrite ≤ 1 ∧
    (succeeded env).world.calls.countP Call.isRead ≤ 1 := by
  simp [succeeded, mainLine, callsToConnect, List.countP_cons, Call.isConnect,
    Call.isUserauth, Call.isWrite, Call.isRead]

/-- In a trace that starts with the eleven main-line calls and has no read afterwards, the
only read is at index 10 and the write is at index 9. -/
theorem read_preceded_by_write (l tail : List Call) (s ch : Nat)
    (hl : l = mainLine s ch ++ tail) (htail : ∀ x ∈ tail, x.isRead = false) :
    ∀ (i : Nat) (c : Call), l[i]? = some c → c.isRead = true →
      ∃ j w, j < i ∧ l[j]? = some w ∧ w.isWrite = true := by
  intro i c hi hr
  subst hl
  by_cases h11 : i < 11
  · interval_cases i <;>
      simp [mainLine, callsToConnect] at hi <;>
      subst hi <;>
      simp [Call.isRead] at hr
    exact ⟨9, Call.ssh_channel_write ch (literal NETCONF_HELLO) (strlen (literal NETCONF_HELLO)),
      by decide, by simp [mainLine, callsToConnect], rfl⟩
  · have hlen : (mainLine s ch).length = 11 := rfl
    rw [List.getElem?_append_right (by omega)] at hi
    have := htail c (List.getElem?_mem hi)
    rw [this] at hr
    exact absurd hr (by decide)

theorem no_read_in (l : List Call) (h : ∀ x ∈ l, x.isRead = false) (P : Prop) :
    ∀ (i : Nat) (c : Call), l[i]? = some c → c.isRead = true → P := by
  intro i c hi hr
  rw [h c (List.getElem?_mem hi)] at hr
  exact absurd hr (by decide)

/-- C6: in every run `ssh_connect`, `ssh_userauth_password`, `ssh_channel_write` and
`ssh_channel_read` are each called at most once, and whenever a read occurs in the trace, a
write occurs at an earlier position and its return value was non-negative. -/
theorem single_attempt_read_after_write (env : Env) :
    (main env).world.calls.countP Call.isConnect ≤ 1 ∧
    (main env).world.calls.countP Call.isUserauth ≤ 1 ∧
    (main env).world.calls.countP Call.isWrite ≤ 1 ∧
    (main env).world.calls.countP Call.isRead ≤ 1 ∧
    ∀ (i : Nat) (c : Call), (main env).world.calls[i]? = some c → c.isRead = true →
      0 ≤ env.ssh_channel_write ∧
      ∃ j w, j < i ∧ (main env).world.calls[j]? = some w ∧ w.isWrite = true := by
  rcases first_failure env with hall | ⟨s, hs, hpre⟩
  · rw [main_all_succeed env hall]
    obtain ⟨c1, c2, c3, c4⟩ := succeeded_counts env
    refine ⟨c1, c2, c3, c4, fun i c hi hr => ⟨hall Step.ssh_channel_write, ?_⟩⟩
    exact read_preceded_by_write _ _ env.ssh_new env.ssh_channel_new rfl
      (by simp [Call.isRead]) i c hi hr
  · rw [main_failedAt env s hs hpre]
    obtain ⟨c1, c2, c3, c4⟩ := failedAt_counts env s
    refine ⟨c1, c2, c3, c4, ?_⟩
    cases s
    case ssh_channel_read =>
      intro i c hi hr
      refine ⟨hpre Step.ssh_channel_write (by decide), ?_⟩
      exact read_preceded_by_write _ _ env.ssh_new env.ssh_channel_new rfl
        (by simp [Call.isRead]) i c hi hr
    all_goals
      intro i c hi hr
      exact no_read_in _ (by simp [failedAt, failed, mainLine, callsToConnect, Call.isRead]) _
        i c hi hr

/-- C6 at `envOk`: the read is the call at index 10 there. -/
theorem single_attempt_read_after_write_witness :
    (main envOk).world.calls[10]? = some (Call.ssh_channel_read 2 4095 0) ∧
    0 ≤ envOk.ssh_channel_write ∧
    ∃ j w, j < 10 ∧ (main envOk).world.calls[j]? = some w ∧ w.isWrite = true :=
  ⟨by decide,
    (single_attempt_read_after_write envOk).2.2.2.2 10 (Call.ssh_channel_read 2 4095 0)
      (by decide) rfl⟩

/-! ## C7: the payload of the write -/

theorem write_mem_calls (env : Env) (ch : Nat) (data : List Nat) (len : Nat)
    (h : Call.ssh_channel_write ch data len ∈ (main env).world.calls) :
    data = literal NETCONF_HELLO ∧ len = strlen (literal NETCONF_HELLO) := by
  rcases first_failure env with hall | ⟨s, hs, hpre⟩
  · rw [main_all_succeed env hall] at h
    simp [succeeded, mainLine, callsToConnect] at h
    exact ⟨h.2.1, h.2.2⟩
  · rw [main_failedAt env s hs hpre] at h
    cases s <;> simp [failedAt, failed, mainLine, callsToConnect] at h <;>
      exact ⟨h.2.1, h.2.2⟩

set_option maxRecDepth 100000 in
theorem hello_payload :
    strlen (literal NETCONF_HELLO) = 201 ∧
    (bytes NETCONF_HELLO).length = 201 ∧
    (literal NETCONF_HELLO).take 201 = bytes NETCONF_HELLO := by
  decide

set_option maxRecDepth 100000 in
theorem hello_shape :
    bytes ("<?xml version=\"1.0\" encoding=\"UTF-8\"?>\n" ++
      "<hello xmlns=\"urn:ietf:params:xml:ns:netconf:base:1.0\">\n") <+: bytes NETCONF_HELLO ∧
    bytes "</hello>\n" <:+ bytes NETCONF_HELLO ∧
    bytes "<capability>urn:ietf:params:netconf:base:1.0</capability>" <:+: bytes NETCONF_HELLO ∧
    occurrences (bytes "<capability>") (bytes NETCONF_HELLO) = 1 ∧
    occurrences (bytes "<hello ") (bytes NETCONF_HELLO) = 1 ∧
    ¬ (bytes END_OF_MESSAGE <:+: bytes NETCONF_HELLO) := by
  decide

/-- C7: whenever `ssh_channel_write` is called, its data pointer addresses the literal
`NETCONF_HELLO` and the requested length is its `strlen`, 201, so the payload is all of
`NETCONF_HELLO` without the terminating NUL, whatever the environment.  The payload starts
with the XML declaration and the opening `hello` tag in the NETCONF base namespace, holds
the capability `urn:ietf:params:netconf:base:1.0` and no other `capability` element, ends with
the closing `hello` tag, and does not contain the end-of-message separator. -/
theorem write_payload_is_hello (env : Env) (ch : Nat) (data : List Nat) (len : Nat)
    (h : Call.ssh_channel_write ch data len ∈ (main env).world.calls) :
    data = literal NETCONF_HELLO ∧
    len = strlen (literal NETCONF_HELLO) ∧
    len = 201 ∧
    data.take len = bytes NETCONF_HELLO ∧
    bytes ("<?xml version=\"1.0\" encoding=\"UTF-8\"?>\n" ++
      "<hello xmlns=\"urn:ietf:params:xml:ns:netconf:base:1.0\">\n") <+: data.take len ∧
    bytes "</hello>\n" <:+ data.take len ∧
    bytes "<capability>urn:ietf:params:netconf:base:1.0</capability>" <:+: data.take len ∧
    occurrences (bytes "<capability>") (data.take len) = 1 ∧
    occurrences (bytes "<hello ") (data.take len) = 1 ∧
    ¬ (bytes END_OF_MESSAGE <:+: data.take len) := by
  obtain ⟨hd, hl⟩ := write_mem_calls env ch data len h
  obtain ⟨h201, -, htake⟩ := hello_payload
  have hp : data.take len = bytes NETCONF_HELLO := by rw [hd, hl, h201, htake]
  rw [hp]
  obtain ⟨s1, s2, s3, s4, s5, s6⟩ := hello_shape
  exact ⟨hd, hl, hl.trans h201, rfl, s1, s2, s3, s4, s5, s6⟩

/-- C7 at `envOk`, where the write is made on channel 2. -/
theorem write_payload_is_hello_witness :
    Call.ssh_channel_write 2 (literal NETCONF_HELLO) 201 ∈ (main envOk).world.calls ∧
    (literal NETCONF_HELLO).take 201 = bytes NETCONF_HELLO ∧
    ¬ (bytes END_OF_MESSAGE <:+: (literal NETCONF_HELLO).take 201) :=
  have hmem : Call.ssh_channel_write 2 (literal NETCONF_HELLO) 201 ∈ (main envOk).world.calls := by
    rw [main_success envOk (by decide) (by decide) (by decide) (by decide) (by decide)
      (by decide) (by decide) (by decide)]
    simp [succeeded, mainLine, callsToConnect, envOk, hello_payload.1]
  have hthm := write_payload_is_hello envOk 2 (literal NETCONF_HELLO) 201 hmem
  ⟨hmem, hthm.2.2.2.1, hthm.2.2.2.2.2.2.2.2.2⟩

/-! ## C8: the receive buffer stays NUL-terminated -/

theorem cstr_terminator (l : List Nat) (h : (cstr l).length < l.length) :
    l[(cstr l).length]? = some 0 := by
  induction l with
  | nil => simp at h
  | cons a t ih =>
    by_cases ha : a = 0
    · simp [cstr, ha]
    · have hc : cstr (a :: t) = a :: cstr t := by simp [cstr, List.takeWhile_cons, ha]
      rw [hc] at h ⊢
      simp only [List.length_cons, Nat.add_lt_add_iff_right] at h
      simpa using ih h

theorem cstr_eq_take (l : List Nat) : cstr l = l.take (cstr l).length := by
  induction l with
  | nil => rfl
  | cons a t ih =>
    by_cases ha : a = 0
    · simp [cstr, ha]
    · have hc : cstr (a :: t) = a :: cstr t := by simp [cstr, List.takeWhile_cons, ha]
      rw [hc, List.length_cons, List.take_succ_cons, ← ih]

theorem read_mem_calls (env : Env) (ch count : Nat) (st : Int)
    (h : Call.ssh_channel_read ch count st ∈ (main env).world.calls) : count = 4095 := by
  rcases first_failure env with hall | ⟨s, hs, hpre⟩
  · rw [main_all_succeed env hall] at h
    simp [succeeded, mainLine, callsToConnect, BUFFER_SIZE] at h
    exact h.2.1
  · rw [main_failedAt env s hs hpre] at h
    cases s <;> simp [failedAt, failed, mainLine, callsToConnect, BUFFER_SIZE] at h
    exact h.2.1

/-- C8: if `ssh_channel_read` stores at most the requested count of bytes, then every read
`main` issues asks for 4095 bytes, the 4096-byte buffer is all zero before the read, and after
it the buffer still has 4096 bytes with `buffer[4095] = 0`.  The string `printf` takes from
the buffer ends at a NUL inside the buffer, is at most 4095 bytes long, and is the body of
standard output on a successful run. -/
theorem read_buffer_nul_terminated (env : Env) (h : env.read_data.length ≤ 4095) :
    (∀ (ch count : Nat) (st : Int),
      Call.ssh_channel_read ch count st ∈ (main env).world.calls → count = 4095) ∧
    (buffer_uninit env).length = 4096 ∧
    memset (buffer_uninit env) 0 4096 = List.replicate 4096 0 ∧
    (buffer_after_read env).length = 4096 ∧
    (buffer_after_read env)[4095]? = some 0 ∧
    (∃ k, k ≤ 4095 ∧ (buffer_after_read env)[k]? = some 0 ∧
      cstr (buffer_after_read env) = (buffer_after_read env).take k) ∧
    (cstr (buffer_after_read env)).length ≤ 4095 ∧
    ((main env).term = Termination.returned 0 → (main env).world.stdout =
      bytes "NETCONF Server Response:\n" ++ cstr (buffer_after_read env) ++ bytes "\n") := by
  have hlen : (cstr (buffer_after_read env)).length ≤ 4095 := by
    rw [cstr_buffer_after_read env h]
    exact le_trans (cstr_length_le _) h
  have hbuf : (buffer_after_read env).length = 4096 := buffer_after_read_length env h
  refine ⟨read_mem_calls env, buffer_uninit_length env, memset_buffer env, hbuf,
    buffer_after_read_last env h, ?_, hlen, ?_⟩
  · exact ⟨(cstr (buffer_after_read env)).length, hlen,
      cstr_terminator _ (by omega), cstr_eq_take _⟩
  · intro hret
    rw [main_of_returned env hret]
    rfl

/-- C8 at `envOk`, where the server sends two bytes. -/
theorem read_buffer_nul_terminated_witness :
    envOk.read_data.length ≤ 4095 ∧
    (buffer_after_read envOk).length = 4096 ∧
    (buffer_after_read envOk)[4095]? = some 0 ∧
    (cstr (buffer_after_read envOk)).length ≤ 4095 :=
  ⟨by decide, (read_buffer_nul_terminated envOk (by decide)).2.2.2.1,
    (read_buffer_nul_terminated envOk (by decide)).2.2.2.2.1,
    (read_buffer_nul_terminated envOk (by decide)).2.2.2.2.2.2.1⟩

/-! ## C9: the session is freed once, last -/

/-- In a trace `pre ++ [x]` with no `ssh_free` in `pre`, an `ssh_free` can only be the last
call. -/
theorem free_only_last (pre : List Call) (x : Call) (hpre : ∀ y ∈ pre, y.isFree = false) :
    ∀ (i : Nat) (c : Call), (pre ++ [x])[i]? = some c → c.isFree = true →
      i + 1 = (pre ++ [x]).length := by
  intro i c hi hc
  by_cases hlt : i < pre.length
  · rw [List.getElem?_append_left hlt] at hi
    rw [hpre c (List.getElem?_mem hi)] at hc
    exact absurd hc (by decide)
  · have hbound : i < (pre ++ [x]).length := by
      rcases List.getElem?_eq_some.mp hi with ⟨hb, -⟩
      exact hb
    simp only [List.length_append, List.length_singleton] at hbound ⊢
    omega

theorem mainLine_kinds (s ch : Nat) : ∀ y ∈ mainLine s ch,
    y.isFree = false ∧ y.isChannelClose = false ∧ y.isChannelFree = false ∧
      y.isDisconnect = false := by
  simp [mainLine, callsToConnect, Call.isFree, Call.isChannelClose, Call.isChannelFree,
    Call.isDisconnect]

theorem failed_free (env : Env) (k : Nat) (message : String) :
    ∃ pre, (failed env k message).world.calls = pre ++ [Call.ssh_free env.ssh_new] ∧
      (∀ y ∈ pre, y.isFree = false) ∧
      (∀ y ∈ (failed env k message).world.calls,
        y.isChannelClose = false ∧ y.isChannelFree = false ∧ y.isDisconnect = false) := by
  refine ⟨(mainLine env.ssh_new env.ssh_channel_new).take (5 + k) ++
    [Call.ssh_get_error env.ssh_new], by simp [failed], ?_, ?_⟩
  · intro y hy
    rcases List.mem_append.mp hy with hy | hy
    · exact (mainLine_kinds _ _ y (List.mem_of_mem_take hy)).1
    · rw [List.mem_singleton.mp hy]
      rfl
  · intro y hy
    simp only [failed, List.mem_append, List.mem_cons, List.mem_singleton, List.not_mem_nil,
      or_false] at hy
    rcases hy with hy | hy | hy
    · exact (mainLine_kinds _ _ y (List.mem_of_mem_take hy)).2
    · rw [hy]
      exact ⟨rfl, rfl, rfl⟩
    · rw [hy]
      exact ⟨rfl, rfl, rfl⟩

theorem failedAt_free (env : Env) (s : Step) (hs : s ≠ Step.ssh_new) :
    ∃ pre, (failedAt env s).world.calls = pre ++ [Call.ssh_free env.ssh_new] ∧
      (∀ y ∈ pre, y.isFree = false) ∧
      (∀ y ∈ (failedAt env s).world.calls,
        y.isChannelClose = false ∧ y.isChannelFree = false ∧ y.isDisconnect = false) := by
  cases s
  · exact absurd rfl hs
  all_goals exact failed_free env _ _

theorem succeeded_free (env : Env) :
    ∃ pre, (succeeded env).world.calls = pre ++ [Call.ssh_free env.ssh_new] ∧
      (∀ y ∈ pre, y.isFree = false) := by
  refine ⟨(succeeded env).world.calls.dropLast, rfl, ?_⟩
  simp [succeeded, mainLine, callsToConnect, Call.isFree]

theorem trace_free (env : Env) (h : env.ssh_new ≠ NULL) :
    ∃ pre, (main env).world.calls = pre ++ [Call.ssh_free env.ssh_new] ∧
      (∀ y ∈ pre, y.isFree = false) := by
  rcases first_failure env with hall | ⟨s, hs, hpre⟩
  · rw [main_all_succeed env hall]
    exact succeeded_free env
  · rw [main_failedAt env s hs hpre]
    have hne : s ≠ Step.ssh_new := by
      rintro rfl
      exact hs h
    obtain ⟨pre, h1, h2, -⟩ := failedAt_free env s hne
    exact ⟨pre, h1, h2⟩

theorem countP_eq_zero_of_all_false (p : Call → Bool) (l : List Call)
    (h : ∀ y ∈ l, p y = false) : l.countP p = 0 := by
  rw [List.countP_eq_zero]
  intro y hy
  simp [h y hy]

/-- C9: in every run in which `ssh_new` returned a session, exactly one `ssh_free` is called,
it is called on that session and is the last call of the run, so no call (and no
`ssh_get_error`) follows it.  `ssh_channel_close`, `ssh_channel_free` and `ssh_disconnect`
occur only in runs that return 0: a run that exits through `error_exit` never closes or
frees the channel. -/
theorem session_freed_once_and_last (env : Env) (h : env.ssh_new ≠ NULL) :
    (main env).world.calls.countP Call.isFree = 1 ∧
    (main env).world.calls.count (Call.ssh_free env.ssh_new) = 1 ∧
    (main env).world.calls.getLast? = some (Call.ssh_free env.ssh_new) ∧
    (∀ (i : Nat) (c : Call), (main env).world.calls[i]? = some c → c.isFree = true →
      i + 1 = (main env).world.calls.length) ∧
    (∀ (i j : Nat) (s : Nat), (main env).world.calls[i]? = some (Call.ssh_free s) → i < j →
      (main env).world.calls[j]? = none) ∧
    (∀ c ∈ (main env).world.calls,
      c.isChannelClose = true ∨ c.isChannelFree = true ∨ c.isDisconnect = true →
      (main env).term = Termination.returned 0) ∧
    ((main env).term ≠ Termination.returned 0 → ∀ c ∈ (main env).world.calls,
      c.isChannelClose = false ∧ c.isChannelFree = false ∧ c.isDisconnect = false) := by
  obtain ⟨pre, hcalls, hpre⟩ := trace_free env h
  have hlast := free_only_last pre (Call.ssh_free env.ssh_new) hpre
  have herr : (main env).term ≠ Termination.returned 0 → ∀ c ∈ (main env).world.calls,
      c.isChannelClose = false ∧ c.isChannelFree = false ∧ c.isDisconnect = false := by
    intro hne
    obtain ⟨s, hs, -, hm⟩ := main_of_not_returned env hne
    have hs0 : s ≠ Step.ssh_new := by
      rintro rfl
      exact hs h
    obtain ⟨-, -, -, h3⟩ := failedAt_free env s hs0
    rw [hm]
    exact h3
  refine ⟨?_, ?_, ?_, ?_, ?_, ?_, herr⟩
  · rw [hcalls, List.countP_append, countP_eq_zero_of_all_false _ _ hpre]
    rfl
  · rw [hcalls, List.count_append]
    have hz : pre.count (Call.ssh_free env.ssh_new) = 0 := by
      rw [List.count_eq_zero]
      intro hmem
      exact absurd (hpre _ hmem) (by simp [Call.isFree])
    rw [hz]
    simp
  · rw [hcalls, List.getLast?_concat]
  · rw [hcalls]
    exact hlast
  · rw [hcalls]
    intro i j s hi hij
    have := hlast i (Call.ssh_free s) hi rfl
    exact List.getElem?_eq_none (by omega)
  · intro c hc hkind
    by_contra hne
    obtain ⟨a, b, d⟩ := herr hne c hc
    rw [a, b, d] at hkind
    simp at hkind

/-- C9 at `envWriteFails`, where the run exits through `error_exit`. -/
theorem session_freed_once_and_last_witness :
    envWriteFails.ssh_new ≠ NULL ∧
    (main envWriteFails).world.calls.countP Call.isFree = 1 ∧
    (main envWriteFails).world.calls.getLast? = some (Call.ssh_free 1) :=
  ⟨by decide, (session_freed_once_and_last envWriteFails (by decide)).1,
    (session_freed_once_and_last envWriteFails (by decide)).2.2.1⟩

/-! ## C10: a short write counts as success -/

theorem send_message_not_prefix (rest : List Nat) :
    ¬ (bytes "Failed to send NETCONF HELLO message" <+:
      bytes "Failed to read response from server" ++ rest) := by
  rintro ⟨t, ht⟩
  have h := congrArg (fun l => l.take 11) ht
  simp only at h
  rw [List.take_append_of_le_length (by decide), List.take_append_of_le_length (by decide)] at h
  revert h
  decide

/-- C10: when the six steps before the write succeed, every return value `n ≥ 0` of
`ssh_channel_write`, zero and values below the 201 requested bytes included, leads to exactly
one write followed directly by the read, and the write itself reports nothing: standard error
stays empty and `main` returns 0 when the read succeeds, and holds only the read-failure line
when the read fails.  A negative return value leads to the message
`Failed to send NETCONF HELLO message`, exit status `EXIT_FAILURE` and no read.  So that
message appears exactly when the value is negative. -/
theorem short_write_proceeds_to_read (env : Env)
    (h_new : env.ssh_new ≠ NULL)
    (h_connect : env.ssh_connect = SSH_OK)
    (h_auth : env.ssh_userauth_password = SSH_AUTH_SUCCESS)
    (h_channel : env.ssh_channel_new ≠ NULL)
    (h_open : env.ssh_channel_open_session = SSH_OK)
    (h_subsystem : env.ssh_channel_request_subsystem = SSH_OK) :
    (0 ≤ env.ssh_channel_write →
      (main env).world.calls.countP Call.isWrite = 1 ∧
      (main env).world.calls[9]? = some (Call.ssh_channel_write env.ssh_channel_new
        (literal NETCONF_HELLO) (strlen (literal NETCONF_HELLO))) ∧
      (main env).world.calls[10]? = some (Call.ssh_channel_read env.ssh_channel_new 4095 0) ∧
      ¬ (bytes "Failed to send NETCONF HELLO message" <+: (main env).world.stderr) ∧
      (0 ≤ env.ssh_channel_read →
        (main env).world.stderr = [] ∧ (main env).term = Termination.returned 0) ∧
      (env.ssh_channel_read < 0 →
        (main env).world.stderr = bytes "Failed to read response from server" ++ bytes ": " ++
          env.ssh_get_error env.ssh_new ++ bytes "\n")) ∧
    (env.ssh_channel_write < 0 →
      (main env).world.stderr = bytes "Failed to send NETCONF HELLO message" ++ bytes ": " ++
        env.ssh_get_error env.ssh_new ++ bytes "\n" ∧
      (main env).term = Termination.exited EXIT_FAILURE ∧
      (main env).world.calls.countP Call.isWrite = 1 ∧
      (main env).world.calls.countP Call.isRead = 0) ∧
    (bytes "Failed to send NETCONF HELLO message" <+: (main env).world.stderr ↔
      env.ssh_channel_write < 0) := by
  have hneg : env.ssh_channel_write < 0 →
      (main env).world.stderr = bytes "Failed to send NETCONF HELLO message" ++ bytes ": " ++
        env.ssh_get_error env.ssh_new ++ bytes "\n" ∧
      (main env).term = Termination.exited EXIT_FAILURE ∧
      (main env).world.calls.countP Call.isWrite = 1 ∧
      (main env).world.calls.countP Call.isRead = 0 := by
    intro hw
    rw [main_write_fail env h_new h_connect h_auth h_channel h_open h_subsystem hw]
    refine ⟨rfl, rfl, ?_, ?_⟩ <;>
      simp [failed, mainLine, callsToConnect, List.countP_cons, Call.isWrite, Call.isRead]
  have hpos : 0 ≤ env.ssh_channel_write →
      (main env).world.calls.countP Call.isWrite = 1 ∧
      (main env).world.calls[9]? = some (Call.ssh_channel_write env.ssh_channel_new
        (literal NETCONF_HELLO) (strlen (literal NETCONF_HELLO))) ∧
      (main env).world.calls[10]? = some (Call.ssh_channel_read env.ssh_channel_new 4095 0) ∧
      ¬ (bytes "Failed to send NETCONF HELLO message" <+: (main env).world.stderr) ∧
      (0 ≤ env.ssh_channel_read →
        (main env).world.stderr = [] ∧ (main env).term = Termination.returned 0) ∧
      (env.ssh_channel_read < 0 →
        (main env).world.stderr = bytes "Failed to read response from server" ++ bytes ": " ++
          env.ssh_get_error env.ssh_new ++ bytes "\n") := by
    intro hw
    by_cases hr : env.ssh_channel_read < 0
    · rw [main_read_fail env h_new h_connect h_auth h_channel h_open h_subsystem hw hr]
      refine ⟨?_, rfl, rfl, ?_, fun hge => absurd hr (not_lt.mpr hge), fun _ => rfl⟩
      · simp [failed, mainLine, callsToConnect, List.countP_cons, Call.isWrite]
      · show ¬ (_ <+: bytes "Failed to read response from server" ++ bytes ": " ++
          env.ssh_get_error env.ssh_new ++ bytes "\n")
        rw [List.append_assoc, List.append_assoc]
        exact send_message_not_prefix _
    · rw [main_success env h_new h_connect h_auth h_channel h_open h_subsystem hw
        (not_lt.mp hr)]
      refine ⟨?_, rfl, rfl, ?_, fun _ => ⟨rfl, rfl⟩, fun hlt => absurd hlt hr⟩
      · simp [succeeded, mainLine, callsToConnect, List.countP_cons, Call.isWrite]
      · show ¬ (bytes "Failed to send NETCONF HELLO message" <+: [])
        decide
  refine ⟨hpos, hneg, ?_, ?_⟩
  · intro hp
    by_contra hw
    exact (hpos (not_lt.mp hw)).2.2.2.1 hp
  · intro hw
    rw [(hneg hw).1, List.append_assoc, List.append_assoc]
    exact List.prefix_append _ _

/-- C10 at `envShortWrite`, where the write returns 0. -/
theorem short_write_proceeds_to_read_witness :
    envShortWrite.ssh_channel_write = 0 ∧
    (main envShortWrite).world.calls.countP Call.isWrite = 1 ∧
    (main envShortWrite).world.calls[10]? = some (Call.ssh_channel_read 2 4095 0) ∧
    ¬ (bytes "Failed to send NETCONF HELLO message" <+: (main envShortWrite).world.stderr) ∧
    (main envShortWrite).world.stderr = [] ∧
    (main envShortWrite).term = Termination.returned 0 :=
  have hthm := (short_write_proceeds_to_read envShortWrite (by decide) (by decide) (by decide)
    (by decide) (by decide) (by decide)).1 (by decide)
  ⟨rfl, hthm.1, hthm.2.2.1, hthm.2.2.2.1, (hthm.2.2.2.2.1 (by decide)).1,
    (hthm.2.2.2.2.1 (by decide)).2⟩

end NetconfSsh
